import Mathlib

/-!
Shallow embedding of the SEChatGPT application (`src/main.py`): a FastAPI
chat service that keys conversations by a phone-number header, stores
sessions and messages in a relational store, calls a completion API, and
renders transcripts.

The database is modelled as explicit state (`DB`): the two tables as lists
of rows in insertion order, the autoincrement counters, and an abstract
monotone clock `now` standing for `datetime.utcnow` (each committed row is
stamped with the current clock, which then advances).  The completion call
and the markdown renderer are external services, passed in as function
parameters.  Storage-commit failures are injected through a `Faults`
record: `none` means the commit succeeds, `some e` means it raises an
exception whose `str()` is `e` (the pending row is rolled back).  Each
handler returns the outcome (`Except Fatal Response`) together with the
database state left behind, since committed writes survive a later
exception.
-/

namespace SEChat

/-- Row of the `chat_sessions` table (`ChatSession` in `main.py`). -/
structure ChatSession where
  id : Nat
  phone_number : String
  created_at : Nat
deriving Repr, DecidableEq

/-- Row of the `chat_messages` table (`ChatMessage` in `main.py`). -/
structure ChatMessage where
  id : Nat
  session_id : Nat
  role : String
  content : String
  timestamp : Nat
deriving Repr, DecidableEq

/-- The persistent store plus the clock used for `default=datetime.utcnow`.
`sessions` and `messages` are kept in insertion order. -/
structure DB where
  sessions : List ChatSession
  messages : List ChatMessage
  nextSessionId : Nat
  nextMessageId : Nat
  now : Nat
deriving Repr, DecidableEq

/-- The freshly created store (`Base.metadata.create_all` on an absent file). -/
def DB.empty : DB := ⟨[], [], 1, 1, 0⟩

/-- FastAPI `HTTPException`. -/
structure HTTPException where
  status_code : Nat
  detail : String
deriving Repr, DecidableEq

/-- An exception escaping a handler to the transport layer: an
`HTTPException`, or any exception raised by the storage layer. -/
inductive Fatal where
  | httpExc (e : HTTPException)
  | dbExc (msg : String)
deriving Repr, DecidableEq

/-- A handler's normal return value. -/
inductive Response where
  | redirect (url : String) (status_code : Nat)
  | page (messages : List ChatMessage)
deriving Repr, DecidableEq

def browserDetail : String := "This application only works in SMS Explorer browser"

/-- Embedding of `get_phone_number`: reads the `SE-Phone-Number` header; `headers.get`
yields `None` when absent, and `if not phone_number` also rejects the empty
string, raising a 400 `HTTPException` in both cases. -/
def get_phone_number (header : Option String) : Except HTTPException String :=
  match header with
  | none => .error ⟨400, browserDetail⟩
  | some phone_number =>
    if phone_number = "" then .error ⟨400, browserDetail⟩
    else .ok phone_number

/-- SQLAlchemy `Result.scalar_one_or_none`: `none` on zero rows, the row on
exactly one, raises `MultipleResultsFound` otherwise. -/
def scalar_one_or_none {α : Type} : List α → Except String (Option α)
  | [] => .ok none
  | [a] => .ok (some a)
  | _ => .error "MultipleResultsFound"

/-- The rows `select(ChatSession).where(ChatSession.phone_number == p)`
returns, in table order. -/
def sessionsByPhone (db : DB) (phone_number : String) : List ChatSession :=
  db.sessions.filter fun s => s.phone_number == phone_number

/-- Commit failures injected at each `await db.commit()` site of the
application; `some e` makes that commit raise an exception printing as `e`. -/
structure Faults where
  sessionCommit : Option String
  userCommit : Option String
  assistantCommit : Option String
  errorCommit : Option String
  clearCommit : Option String
deriving Repr, DecidableEq

def noFaults : Faults := ⟨none, none, none, none, none⟩

/-- Embedding of `get_or_create_chat_session`: select by phone number, take
`scalar_one_or_none`; when no row exists, add a new `ChatSession` and
commit it (the commit may fail, leaving the store unchanged). -/
def get_or_create_chat_session (phone_number : String) (commitFault : Option String)
    (db : DB) : Except Fatal ChatSession × DB :=
  match scalar_one_or_none (sessionsByPhone db phone_number) with
  | .error e => (.error (.dbExc e), db)
  | .ok (some chat_session) => (.ok chat_session, db)
  | .ok none =>
    match commitFault with
    | some e => (.error (.dbExc e), db)
    | none =>
      let chat_session : ChatSession :=
        { id := db.nextSessionId, phone_number := phone_number, created_at := db.now }
      (.ok chat_session,
        { db with sessions := db.sessions ++ [chat_session],
                  nextSessionId := db.nextSessionId + 1,
                  now := db.now + 1 })

/-- Embedding of `db.add(ChatMessage(...))` followed by `await db.commit()`: the row gets
the next id and the current clock; a failing commit rolls the pending row
back and raises. -/
def add_commit_message (session_id : Nat) (role content : String)
    (commitFault : Option String) (db : DB) : Except String (ChatMessage × DB) :=
  match commitFault with
  | some e => .error e
  | none =>
    let m : ChatMessage :=
      { id := db.nextMessageId, session_id := session_id, role := role,
        content := content, timestamp := db.now }
    .ok (m, { db with messages := db.messages ++ [m],
                      nextMessageId := db.nextMessageId + 1,
                      now := db.now + 1 })

/-- The Boolean order used by `order_by(ChatMessage.timestamp)`. -/
def ChatMessage.tsLE (a b : ChatMessage) : Bool := a.timestamp ≤ b.timestamp

/-- Embedding of `get_chat_history`: select the session's messages ordered by timestamp
ascending (a stable sort over the table rows). -/
def get_chat_history (session_id : Nat) (db : DB) : List ChatMessage :=
  (db.messages.filter fun m => m.session_id == session_id).mergeSort ChatMessage.tsLE

/-- The view-time markdown conversion in `chat_page`: only rows whose role
is `"assistant"` get their content converted. -/
def render (md : String → String) (m : ChatMessage) : ChatMessage :=
  if m.role == "assistant" then { m with content := md m.content } else m

/-- Handler for `GET /` (`chat_page`): resolve phone number, resolve-or-create session,
load the ordered history, convert assistant rows to HTML, return the page.
Nothing is committed after the conversion, so the store keeps the raw text. -/
def chat_page (md : String → String) (header : Option String) (faults : Faults)
    (db : DB) : Except Fatal Response × DB :=
  match get_phone_number header with
  | .error e => (.error (.httpExc e), db)
  | .ok phone_number =>
    match get_or_create_chat_session phone_number faults.sessionCommit db with
    | (.error e, db) => (.error e, db)
    | (.ok chat_session, db) =>
      let messages := get_chat_history chat_session.id db
      (.ok (.page (messages.map (render md))), db)

/-- Handler for `POST /send` (`send_message`): resolve session, commit the user's
message, load the full history, call the completion API inside `try:`; on
success commit the assistant reply (this commit is inside the `try` block
too), and on any exception `e` commit instead an assistant message reading
`"Error: " ++ e`; finally redirect 303 to `/`.  Commits outside the `try`
block raise through to the transport layer. -/
def send_message (header : Option String) (message : String)
    (completion : List (String × String) → Except String String)
    (faults : Faults) (db : DB) : Except Fatal Response × DB :=
  match get_phone_number header with
  | .error e => (.error (.httpExc e), db)
  | .ok phone_number =>
    match get_or_create_chat_session phone_number faults.sessionCommit db with
    | (.error e, db) => (.error e, db)
    | (.ok chat_session, db) =>
      match add_commit_message chat_session.id "user" message faults.userCommit db with
      | .error e => (.error (.dbExc e), db)
      | .ok (_user_message, db) =>
        let messages := get_chat_history chat_session.id db
        let openai_messages := messages.map fun msg => (msg.role, msg.content)
        let tryBlock : Except String DB :=
          match completion openai_messages with
          | .error e => .error e
          | .ok assistant_content =>
            match add_commit_message chat_session.id "assistant" assistant_content
                faults.assistantCommit db with
            | .error e => .error e
            | .ok (_assistant_message, db) => .ok db
        match tryBlock with
        | .ok db => (.ok (.redirect "/" 303), db)
        | .error e =>
          match add_commit_message chat_session.id "assistant" ("Error: " ++ e)
              faults.errorCommit db with
          | .error e2 => (.error (.dbExc e2), db)
          | .ok (_error_message, db) => (.ok (.redirect "/" 303), db)

/-- Handler for `POST /clear` (`clear_history`): resolve session, bulk-delete its
messages, commit, redirect 303 to `/`.  The session row itself is kept. -/
def clear_history (header : Option String) (faults : Faults) (db : DB) :
    Except Fatal Response × DB :=
  match get_phone_number header with
  | .error e => (.error (.httpExc e), db)
  | .ok phone_number =>
    match get_or_create_chat_session phone_number faults.sessionCommit db with
    | (.error e, db) => (.error e, db)
    | (.ok chat_session, db) =>
      match faults.clearCommit with
      | some e => (.error (.dbExc e), db)
      | none =>
        (.ok (.redirect "/" 303),
          { db with messages :=
              db.messages.filter fun m => m.session_id != chat_session.id })

/-- Consistency of a store state: messages are listed in non-decreasing
timestamp order and no stored timestamp is ahead of the clock.  `DB.empty`
satisfies it and every handler preserves it. -/
def DB.WF (db : DB) : Prop :=
  db.messages.Pairwise (fun a b => a.timestamp ≤ b.timestamp) ∧
  ∀ m ∈ db.messages, m.timestamp ≤ db.now

instance (db : DB) : Decidable db.WF := by
  unfold DB.WF; infer_instance

/-- A store holding two session rows with the same phone number, as the
non-atomic check-then-insert can leave behind (spec §9). -/
def dupDB : DB := ⟨[⟨1, "+15550001", 0⟩, ⟨2, "+15550001", 1⟩], [], 3, 1, 2⟩

/-- A well-formed store with one session and a short transcript, plus a
message of an unrelated session. -/
def sampleDB : DB :=
  ⟨[⟨1, "+15550001", 0⟩],
   [⟨1, 1, "user", "hi", 1⟩, ⟨2, 1, "assistant", "hello!", 2⟩, ⟨3, 2, "user", "other", 3⟩],
   2, 4, 4⟩

/-- A completion client that always fails, printing as `"boom"`. -/
def failingCompletion : List (String × String) → Except String String :=
  fun _ => .error "boom"

/-- A completion client that always replies `"hello!"`. -/
def okCompletion : List (String × String) → Except String String :=
  fun _ => .ok "hello!"

/-- Faults making only the assistant-reply commit (the one inside the
`try:` block of `send_message`) fail, printing as `"disk full"`. -/
def assistantCommitFault : Faults := ⟨none, none, some "disk full", none, none⟩

/-- Faults making only the user-message commit fail. -/
def userCommitFault (e : String) : Faults := ⟨none, some e, none, none, none⟩

/-- Faults making only the except-branch error-message commit fail. -/
def errorCommitFault (e : String) : Faults := ⟨none, none, none, some e, none⟩

/-!  ## Supporting lemmas  -/

/-- Under the ordering invariant, the `ORDER BY timestamp` read returns the
session's rows exactly in table (insertion) order. -/
theorem get_chat_history_eq_filter (session_id : Nat) (db : DB)
    (h : db.messages.Pairwise fun a b => a.timestamp ≤ b.timestamp) :
    get_chat_history session_id db
      = db.messages.filter fun m => m.session_id == session_id := by
  apply List.mergeSort_of_sorted
  exact (List.Pairwise.sublist (List.filter_sublist _) h).imp fun hab => by
    simpa [ChatMessage.tsLE] using hab

/-- When exactly one session row matches, the lookup returns it and leaves
the store untouched. -/
theorem get_or_create_found (phone_number : String) (db : DB) (s : ChatSession)
    (h : sessionsByPhone db phone_number = [s]) (fault : Option String) :
    get_or_create_chat_session phone_number fault db = (.ok s, db) := by
  unfold get_or_create_chat_session
  rw [h]
  rfl

/-- When at most one session row matches, session resolution succeeds and
afterwards exactly one row matches; messages, the clock lower bound and the
message counter are preserved, and at most one session row is appended. -/
theorem get_or_create_resolves (phone_number : String) (db : DB)
    (hone : (sessionsByPhone db phone_number).length ≤ 1) :
    ∃ s db₀, get_or_create_chat_session phone_number none db = (.ok s, db₀) ∧
      db₀.messages = db.messages ∧
      db.now ≤ db₀.now ∧
      db₀.nextMessageId = db.nextMessageId ∧
      sessionsByPhone db₀ phone_number = [s] ∧
      (db₀.sessions = db.sessions ∨ db₀.sessions = db.sessions ++ [s]) := by
  rcases h : sessionsByPhone db phone_number with _ | ⟨s0, rest⟩
  · refine ⟨⟨db.nextSessionId, phone_number, db.now⟩,
      { db with sessions := db.sessions ++ [⟨db.nextSessionId, phone_number, db.now⟩],
                nextSessionId := db.nextSessionId + 1, now := db.now + 1 },
      ?_, rfl, Nat.le_succ _, rfl, ?_, Or.inr rfl⟩
    · unfold get_or_create_chat_session
      rw [h]
      rfl
    · unfold sessionsByPhone at h ⊢
      simp only [List.filter_append, h, List.nil_append]
      simp
  · rcases rest with _ | ⟨s1, rest⟩
    · exact ⟨s0, db, get_or_create_found phone_number db s0 h none, rfl, le_refl _,
        rfl, h, Or.inl rfl⟩
    · rw [h] at hone
      simp at hone

/-!  ## Claims  -/

/-- C3: for every session id, `get_chat_history` returns all messages of
that session in non-decreasing timestamp order, and that order matches the
order in which the messages were inserted (the table's insertion order). -/
theorem claim_C3_history_ordered (session_id : Nat) (db : DB) (hwf : db.WF) :
    get_chat_history session_id db
      = db.messages.filter (fun m => m.session_id == session_id) ∧
    (get_chat_history session_id db).Pairwise
      (fun a b => a.timestamp ≤ b.timestamp) := by
  have heq := get_chat_history_eq_filter session_id db hwf.1
  refine ⟨heq, ?_⟩
  rw [heq]
  exact List.Pairwise.sublist (List.filter_sublist _) hwf.1

/-- Witness for C3 on a concrete well-formed store. -/
theorem claim_C3_witness :
    DB.WF sampleDB ∧
    (get_chat_history 1 sampleDB
        = sampleDB.messages.filter (fun m => m.session_id == 1) ∧
      (get_chat_history 1 sampleDB).Pairwise
        (fun a b => a.timestamp ≤ b.timestamp)) :=
  ⟨by decide, claim_C3_history_ordered 1 sampleDB (by decide)⟩

/-- C4: a request with no phone-number header is rejected with a 400
`HTTPException` by each of the three endpoints, and the store is returned
exactly as it was: no session row and no message row is created or
modified. -/
theorem claim_C4_missing_header_rejected (md : String → String) (message : String)
    (completion : List (String × String) → Except String String)
    (faults : Faults) (db : DB) :
    chat_page md none faults db = (.error (.httpExc ⟨400, browserDetail⟩), db) ∧
    send_message none message completion faults db
      = (.error (.httpExc ⟨400, browserDetail⟩), db) ∧
    clear_history none faults db = (.error (.httpExc ⟨400, browserDetail⟩), db) :=
  ⟨rfl, rfl, rfl⟩

/-- C9: a phone-number header that is present but empty is treated exactly
like an absent one: `get_phone_number` raises the same 400 error, and each
endpoint rejects the request leaving the store untouched. -/
theorem claim_C9_empty_header_rejected (md : String → String) (message : String)
    (completion : List (String × String) → Except String String)
    (faults : Faults) (db : DB) :
    get_phone_number (some "") = get_phone_number none ∧
    chat_page md (some "") faults db = (.error (.httpExc ⟨400, browserDetail⟩), db) ∧
    send_message (some "") message completion faults db
      = (.error (.httpExc ⟨400, browserDetail⟩), db) ∧
    clear_history (some "") faults db = (.error (.httpExc ⟨400, browserDetail⟩), db) := by
  refine ⟨rfl, ?_, ?_, ?_⟩ <;> rfl

/-- C10: with at most one matching session row the lookup-or-create returns
a session; with two or more rows sharing the phone number,
`scalar_one_or_none` raises `MultipleResultsFound` instead of returning
either session, and the store is unchanged. -/
theorem claim_C10_lookup_uniqueness (phone_number : String) (db : DB) :
    ((sessionsByPhone db phone_number).length ≤ 1 →
      ∃ s db', get_or_create_chat_session phone_number none db = (.ok s, db')) ∧
    (2 ≤ (sessionsByPhone db phone_number).length →
      get_or_create_chat_session phone_number none db
        = (.error (.dbExc "MultipleResultsFound"), db)) := by
  constructor
  · intro hone
    obtain ⟨s, db₀, heq, -⟩ := get_or_create_resolves phone_number db hone
    exact ⟨s, db₀, heq⟩
  · intro htwo
    rcases h : sessionsByPhone db phone_number with _ | ⟨s0, _ | ⟨s1, rest⟩⟩ <;>
        rw [h] at htwo
    · simp at htwo
    · simp at htwo
    · unfold get_or_create_chat_session
      rw [h]
      rfl

/-- Witness for C10: both branches at concrete stores. -/
theorem claim_C10_witness :
    ((sessionsByPhone DB.empty "+15550001").length ≤ 1 ∧
      ∃ s db', get_or_create_chat_session "+15550001" none DB.empty = (.ok s, db')) ∧
    (2 ≤ (sessionsByPhone dupDB "+15550001").length ∧
      get_or_create_chat_session "+15550001" none dupDB
        = (.error (.dbExc "MultipleResultsFound"), dupDB)) :=
  ⟨⟨by decide, (claim_C10_lookup_uniqueness "+15550001" DB.empty).1 (by decide)⟩,
   ⟨by decide, (claim_C10_lookup_uniqueness "+15550001" dupDB).2 (by decide)⟩⟩

/-- C2: the first request carrying a phone number creates exactly one
session row for it, and every later lookup-or-create on a store where that
row is the unique match returns the same session identifier without
touching the store. -/
theorem claim_C2_session_reuse (phone_number : String) (db : DB)
    (hfresh : sessionsByPhone db phone_number = []) :
    ∃ s db₁,
      get_or_create_chat_session phone_number none db = (.ok s, db₁) ∧
      db₁.sessions = db.sessions ++ [s] ∧
      sessionsByPhone db₁ phone_number = [s] ∧
      db₁.messages = db.messages ∧
      ∀ db₂ : DB, sessionsByPhone db₂ phone_number = [s] →
        get_or_create_chat_session phone_number none db₂ = (.ok s, db₂) := by
  refine ⟨⟨db.nextSessionId, phone_number, db.now⟩,
    { db with sessions := db.sessions ++ [⟨db.nextSessionId, phone_number, db.now⟩],
              nextSessionId := db.nextSessionId + 1, now := db.now + 1 },
    ?_, rfl, ?_, rfl, ?_⟩
  · unfold get_or_create_chat_session
    rw [hfresh]
    rfl
  · unfold sessionsByPhone at hfresh ⊢
    simp only [List.filter_append, hfresh, List.nil_append]
    simp
  · intro db₂ h₂
    exact get_or_create_found phone_number db₂ _ h₂ none

/-- Witness for C2 at a fresh store. -/
theorem claim_C2_witness :
    sessionsByPhone DB.empty "+15550001" = [] ∧
    ∃ s db₁,
      get_or_create_chat_session "+15550001" none DB.empty = (.ok s, db₁) ∧
      db₁.sessions = DB.empty.sessions ++ [s] ∧
      sessionsByPhone db₁ "+15550001" = [s] ∧
      db₁.messages = DB.empty.messages ∧
      ∀ db₂ : DB, sessionsByPhone db₂ "+15550001" = [s] →
        get_or_create_chat_session "+15550001" none db₂ = (.ok s, db₂) :=
  ⟨rfl, claim_C2_session_reuse "+15550001" DB.empty rfl⟩

/-- C7: clearing a transcript empties the session's messages while keeping
its session row, and a second consecutive clear succeeds and leaves the
store exactly as the first one did (a no-op). -/
theorem claim_C7_clear_idempotent (phone_number : String) (hp : phone_number ≠ "")
    (db : DB) (hone : (sessionsByPhone db phone_number).length ≤ 1) :
    ∃ s db₁,
      (get_or_create_chat_session phone_number none db).1 = .ok s ∧
      clear_history (some phone_number) noFaults db = (.ok (.redirect "/" 303), db₁) ∧
      db₁.messages.filter (fun m => m.session_id == s.id) = [] ∧
      sessionsByPhone db₁ phone_number = [s] ∧
      clear_history (some phone_number) noFaults db₁ = (.ok (.redirect "/" 303), db₁) := by
  obtain ⟨s, db₀, heq, hmsg, hnow, hnmi, hone', hsess⟩ :=
    get_or_create_resolves phone_number db hone
  have hphone : get_phone_number (some phone_number) = .ok phone_number := by
    simp [get_phone_number, hp]
  refine ⟨s, { db₀ with messages := db₀.messages.filter fun m => m.session_id != s.id },
    by rw [heq], ?_, ?_, hone', ?_⟩
  · simp only [clear_history, hphone, heq, noFaults]
  · rw [List.filter_filter]
    refine List.eq_nil_iff_forall_not_mem.mpr fun m hm => ?_
    have hmem := List.of_mem_filter hm
    rw [bne, Bool.and_not_self] at hmem
    exact Bool.false_ne_true hmem
  · have hfound := get_or_create_found phone_number
      { db₀ with messages := db₀.messages.filter fun m => m.session_id != s.id }
      s hone' none
    simp only [clear_history, hphone, hfound, noFaults]
    rw [List.filter_filter]
    simp [Bool.and_self]

/-- Witness for C7 on a concrete store with messages. -/
theorem claim_C7_witness :
    ("+15550001" : String) ≠ "" ∧
    (sessionsByPhone sampleDB "+15550001").length ≤ 1 ∧
    ∃ s db₁,
      (get_or_create_chat_session "+15550001" none sampleDB).1 = .ok s ∧
      clear_history (some "+15550001") noFaults sampleDB
        = (.ok (.redirect "/" 303), db₁) ∧
      db₁.messages.filter (fun m => m.session_id == s.id) = [] ∧
      sessionsByPhone db₁ "+15550001" = [s] ∧
      clear_history (some "+15550001") noFaults db₁ = (.ok (.redirect "/" 303), db₁) :=
  ⟨by decide, by decide,
   claim_C7_clear_idempotent "+15550001" (by decide) sampleDB (by decide)⟩

/-- C8: `GET /` converts markdown to HTML only for assistant-role messages
and only in the returned view; the stored message rows come back exactly as
they were and the only possible persistent change is the lazy creation of
the session row. -/
theorem claim_C8_render_at_view_only (md : String → String) (phone_number : String)
    (hp : phone_number ≠ "") (db : DB)
    (hone : (sessionsByPhone db phone_number).length ≤ 1) :
    ∃ s rendered db',
      (get_or_create_chat_session phone_number none db).1 = .ok s ∧
      chat_page md (some phone_number) noFaults db = (.ok (.page rendered), db') ∧
      db'.messages = db.messages ∧
      (db'.sessions = db.sessions ∨ db'.sessions = db.sessions ++ [s]) ∧
      List.Forall₂ (fun m r =>
          (m.role = "assistant" → r = { m with content := md m.content }) ∧
          (m.role ≠ "assistant" → r = m))
        (get_chat_history s.id db') rendered := by
  obtain ⟨s, db₀, heq, hmsg, hnow, hnmi, hone', hsess⟩ :=
    get_or_create_resolves phone_number db hone
  have hphone : get_phone_number (some phone_number) = .ok phone_number := by
    simp [get_phone_number, hp]
  refine ⟨s, (get_chat_history s.id db₀).map (render md), db₀,
    by rw [heq], ?_, hmsg, hsess, ?_⟩
  · simp only [chat_page, hphone, heq, noFaults]
  · rw [List.forall₂_map_right_iff]
    refine List.forall₂_same.mpr fun m _ => ⟨fun hrole => ?_, fun hrole => ?_⟩
    · simp [render, hrole]
    · simp only [render]
      rw [if_neg]
      simpa using hrole

/-- Witness for C8 on a concrete store with a mixed transcript. -/
theorem claim_C8_witness :
    ("+15550001" : String) ≠ "" ∧
    (sessionsByPhone sampleDB "+15550001").length ≤ 1 ∧
    ∃ s rendered db',
      (get_or_create_chat_session "+15550001" none sampleDB).1 = .ok s ∧
      chat_page (fun t => "<p>" ++ t ++ "</p>") (some "+15550001") noFaults sampleDB
        = (.ok (.page rendered), db') ∧
      db'.messages = sampleDB.messages ∧
      (db'.sessions = sampleDB.sessions ∨ db'.sessions = sampleDB.sessions ++ [s]) ∧
      List.Forall₂ (fun m r =>
          (m.role = "assistant" → r = { m with content := "<p>" ++ m.content ++ "</p>" }) ∧
          (m.role ≠ "assistant" → r = m))
        (get_chat_history s.id db') rendered :=
  ⟨by decide, by decide,
   claim_C8_render_at_view_only (fun t => "<p>" ++ t ++ "</p>") "+15550001"
     (by decide) sampleDB (by decide)⟩

/-- C1: when the completion call raises, `POST /send` persists an
assistant-role message whose content is the literal prefix `"Error: "`
followed by the failure description, surfaces no exception, and still
returns the 303 redirect to `/`. -/
theorem claim_C1_completion_failure_recovered (phone_number message e : String)
    (hp : phone_number ≠ "") (db : DB)
    (hone : (sessionsByPhone db phone_number).length ≤ 1)
    (completion : List (String × String) → Except String String)
    (hc : ∀ ms, completion ms = .error e) :
    ∃ db' umsg emsg,
      send_message (some phone_number) message completion noFaults db
        = (.ok (.redirect "/" 303), db') ∧
      db'.messages = db.messages ++ [umsg, emsg] ∧
      umsg.role = "user" ∧ umsg.content = message ∧
      emsg.role = "assistant" ∧ emsg.content = "Error: " ++ e := by
  obtain ⟨s, db₀, heq, hmsg, hnow, hnmi, hone', hsess⟩ :=
    get_or_create_resolves phone_number db hone
  have hphone : get_phone_number (some phone_number) = .ok phone_number := by
    simp [get_phone_number, hp]
  refine ⟨{ db₀ with
             messages := (db₀.messages
                 ++ [⟨db₀.nextMessageId, s.id, "user", message, db₀.now⟩])
               ++ [⟨db₀.nextMessageId + 1, s.id, "assistant", "Error: " ++ e, db₀.now + 1⟩],
             nextMessageId := db₀.nextMessageId + 1 + 1,
             now := db₀.now + 1 + 1 },
    ⟨db₀.nextMessageId, s.id, "user", message, db₀.now⟩,
    ⟨db₀.nextMessageId + 1, s.id, "assistant", "Error: " ++ e, db₀.now + 1⟩,
    ?_, ?_, rfl, rfl, rfl, rfl⟩
  · simp only [send_message, hphone, heq, noFaults, add_commit_message, hc]
  · simp [hmsg]

/-- Witness for C1 at a fresh store and an always-failing completion. -/
theorem claim_C1_witness :
    ∃ db' umsg emsg,
      send_message (some "+15550001") "hi" failingCompletion noFaults DB.empty
        = (.ok (.redirect "/" 303), db') ∧
      db'.messages = DB.empty.messages ++ [umsg, emsg] ∧
      umsg.role = "user" ∧ umsg.content = "hi" ∧
      emsg.role = "assistant" ∧ emsg.content = "Error: " ++ "boom" :=
  claim_C1_completion_failure_recovered "+15550001" "hi" "boom" (by decide) DB.empty
    (by decide) failingCompletion (fun _ => rfl)

/-- Counterexample to C5 as stated: with the completion call succeeding but
the assistant-reply commit failing (`"disk full"`), the handler does NOT
propagate the storage failure: it answers with the 303 redirect and
converts the failure into a stored assistant message `"Error: disk full"`,
because that commit sits inside the `try:` block of `send_message`. -/
theorem claim_C5_counterexample :
    (send_message (some "+15550001") "hi" okCompletion assistantCommitFault DB.empty).1
      = .ok (.redirect "/" 303) ∧
    ((send_message (some "+15550001") "hi" okCompletion assistantCommitFault
        DB.empty).2.messages.map fun m => (m.role, m.content))
      = [("user", "hi"), ("assistant", "Error: disk full")] :=
  ⟨rfl, rfl⟩

/-- C5 amended: a failing commit of the user message, or of the
error message in the `except` branch, propagates out of the handler as a
fatal error; but a failing commit of the assistant reply, which sits inside
the `try:` block, is caught like a completion failure and converted into a
stored assistant message `"Error: " ++ description`, the request still
redirecting 303 to `/`. -/
theorem claim_C5_storage_failure_paths (phone_number message e efail reply : String)
    (hp : phone_number ≠ "") (db : DB)
    (hone : (sessionsByPhone db phone_number).length ≤ 1)
    (completion : List (String × String) → Except String String)
    (hok : ∀ ms, completion ms = .ok reply) :
    (send_message (some phone_number) message completion (userCommitFault e) db).1
        = .error (.dbExc e) ∧
    (send_message (some phone_number) message (fun _ => .error efail)
        (errorCommitFault e) db).1 = .error (.dbExc e) ∧
    ∃ db' emsg,
      send_message (some phone_number) message completion
          ⟨none, none, some e, none, none⟩ db
        = (.ok (.redirect "/" 303), db') ∧
      db'.messages.getLast? = some emsg ∧
      emsg.role = "assistant" ∧ emsg.content = "Error: " ++ e := by
  obtain ⟨s, db₀, heq, hmsg, hnow, hnmi, hone', hsess⟩ :=
    get_or_create_resolves phone_number db hone
  have hphone : get_phone_number (some phone_number) = .ok phone_number := by
    simp [get_phone_number, hp]
  refine ⟨?_, ?_, ?_⟩
  · simp only [send_message, hphone, heq, userCommitFault, add_commit_message]
  · simp only [send_message, hphone, heq, errorCommitFault, add_commit_message]
  · refine ⟨{ db₀ with
               messages := (db₀.messages
                   ++ [⟨db₀.nextMessageId, s.id, "user", message, db₀.now⟩])
                 ++ [⟨db₀.nextMessageId + 1, s.id, "assistant", "Error: " ++ e, db₀.now + 1⟩],
               nextMessageId := db₀.nextMessageId + 1 + 1,
               now := db₀.now + 1 + 1 },
      ⟨db₀.nextMessageId + 1, s.id, "assistant", "Error: " ++ e, db₀.now + 1⟩,
      ?_, ?_, rfl, rfl⟩
    · simp only [send_message, hphone, heq, add_commit_message, hok]
    · exact List.getLast?_concat _

/-- Witness for the amended C5 at a fresh store. -/
theorem claim_C5_witness :
    (send_message (some "+15550001") "hi" okCompletion (userCommitFault "disk full")
        DB.empty).1 = .error (.dbExc "disk full") ∧
    (send_message (some "+15550001") "hi" (fun _ => .error "boom")
        (errorCommitFault "disk full") DB.empty).1 = .error (.dbExc "disk full") ∧
    ∃ db' emsg,
      send_message (some "+15550001") "hi" okCompletion
          ⟨none, none, some "disk full", none, none⟩ DB.empty
        = (.ok (.redirect "/" 303), db') ∧
      db'.messages.getLast? = some emsg ∧
      emsg.role = "assistant" ∧ emsg.content = "Error: " ++ "disk full" :=
  claim_C5_storage_failure_paths "+15550001" "hi" "disk full" "boom" "hello!"
    (by decide) DB.empty (by decide) okCompletion (fun _ => rfl)

/-- C6: a string written as a user message by `POST /send` is returned
unchanged, byte for byte, by the subsequent history read: the history after
the send is the history before it, followed by the user message with
exactly the submitted content and one assistant message. -/
theorem claim_C6_roundtrip (phone_number message : String) (hp : phone_number ≠ "")
    (db : DB) (hone : (sessionsByPhone db phone_number).length ≤ 1) (hwf : db.WF)
    (completion : List (String × String) → Except String String) :
    ∃ s db' umsg xmsg,
      (get_or_create_chat_session phone_number none db).1 = .ok s ∧
      send_message (some phone_number) message completion noFaults db
        = (.ok (.redirect "/" 303), db') ∧
      umsg.role = "user" ∧ umsg.content = message ∧
      xmsg.role = "assistant" ∧
      get_chat_history s.id db' = get_chat_history s.id db ++ [umsg, xmsg] := by
  obtain ⟨s, db₀, heq, hmsg, hnow, hnmi, hone', hsess⟩ :=
    get_or_create_resolves phone_number db hone
  have hphone : get_phone_number (some phone_number) = .ok phone_number := by
    simp [get_phone_number, hp]
  have hbound : ∀ m ∈ db.messages, m.timestamp ≤ db₀.now :=
    fun m hm => le_trans (hwf.2 m hm) hnow
  set umsg : ChatMessage := ⟨db₀.nextMessageId, s.id, "user", message, db₀.now⟩
    with humsg
  set db₁ : DB := { db₀ with
                    messages := db₀.messages ++ [umsg],
                    nextMessageId := db₀.nextMessageId + 1,
                    now := db₀.now + 1 } with hdb₁
  have key : ∀ content : String,
      get_chat_history s.id
          { db₁ with
            messages := db₁.messages
              ++ [⟨db₁.nextMessageId, s.id, "assistant", content, db₁.now⟩],
            nextMessageId := db₁.nextMessageId + 1,
            now := db₁.now + 1 }
        = get_chat_history s.id db
          ++ [umsg, ⟨db₁.nextMessageId, s.id, "assistant", content, db₁.now⟩] := by
    intro content
    set xmsg : ChatMessage := ⟨db₁.nextMessageId, s.id, "assistant", content, db₁.now⟩
      with hxmsg
    have hpw : (db.messages ++ [umsg, xmsg]).Pairwise
        (fun a b => a.timestamp ≤ b.timestamp) := by
      rw [List.pairwise_append]
      refine ⟨hwf.1, ?_, ?_⟩
      · simp [humsg, hxmsg, hdb₁, Nat.le_succ]
      · intro a ha b hb
        rcases List.mem_cons.mp hb with hb | hb
        · rw [hb]; exact hbound a ha
        · rw [List.mem_singleton.mp hb]
          exact le_trans (hbound a ha) (Nat.le_succ _)
    have hmm : ({ db₁ with
                  messages := db₁.messages ++ [xmsg],
                  nextMessageId := db₁.nextMessageId + 1,
                  now := db₁.now + 1 } : DB).messages
        = db.messages ++ [umsg, xmsg] := by
      simp [hdb₁, hmsg]
    rw [get_chat_history_eq_filter _ _ (by rw [hmm]; exact hpw),
      get_chat_history_eq_filter _ _ hwf.1, hmm, List.filter_append]
    simp [humsg, hxmsg]
  rcases hcc : completion ((get_chat_history s.id db₁).map
      fun msg => (msg.role, msg.content)) with efail | reply
  · refine ⟨s, _, umsg, ⟨db₁.nextMessageId, s.id, "assistant", "Error: " ++ efail, db₁.now⟩,
      by rw [heq], ?_, rfl, rfl, rfl, key _⟩
    simp only [send_message, hphone, heq, noFaults, add_commit_message, hcc]
  · refine ⟨s, _, umsg, ⟨db₁.nextMessageId, s.id, "assistant", reply, db₁.now⟩,
      by rw [heq], ?_, rfl, rfl, rfl, key _⟩
    simp only [send_message, hphone, heq, noFaults, add_commit_message, hcc]

/-- Witness for C6 at a fresh store and an always-succeeding completion. -/
theorem claim_C6_witness :
    ("+15550001" : String) ≠ "" ∧
    (sessionsByPhone DB.empty "+15550001").length ≤ 1 ∧
    DB.WF DB.empty ∧
    ∃ s db' umsg xmsg,
      (get_or_create_chat_session "+15550001" none DB.empty).1 = .ok s ∧
      send_message (some "+15550001") "hi" okCompletion noFaults DB.empty
        = (.ok (.redirect "/" 303), db') ∧
      umsg.role = "user" ∧ umsg.content = "hi" ∧
      xmsg.role = "assistant" ∧
      get_chat_history s.id db' = get_chat_history s.id DB.empty ++ [umsg, xmsg] :=
  ⟨by decide, by decide, by decide,
   claim_C6_roundtrip "+15550001" "hi" (by decide) DB.empty (by decide) (by decide)
     okCompletion⟩

end SEChat
